import Mathlib

/-!
Verification of the SMPParser fetch-reconcile pipeline (src/parser.py).

The Python source is shallowly embedded: network effects are replaced by
explicit outcome environments (one outcome per physical attempt), the
process-wide Statistics object becomes an explicitly threaded structure,
Python dictionaries become association lists with insert-or-replace update,
and the tenacity retry decorator becomes an explicit bounded retry loop.
-/

namespace SMPParser

/-- A JSON-like Python value as stored in a player-data dictionary.
Sub-dictionaries produced by the extraction step (socials, rp_cards) are
modelled as lists of values: the core pipeline never inspects them, it only
distinguishes null from non-null for the two validation fields. -/
inductive Val where
  | vnull
  | vstr (s : String)
  | vlist (xs : List Val)

/-- Python identity test with None: true exactly on the null value. -/
def Val.isNull : Val → Bool
  | .vnull => true
  | _ => false

/-- A player-profile dictionary (parse_player_profile output plus the
telegram key): ordered association list, keys unique as in a Python dict. -/
abbrev PlayerData := List (String × Val)

/-- The cache: Python dict mapping nickname to player data. -/
abbrev Cache := List (String × PlayerData)

/-- Python dict lookup d[k] / d.get(k) on an association list. -/
def assocGet {α : Type} : List (String × α) → String → Option α
  | [], _ => none
  | (k, v) :: rest, n => if k = n then some v else assocGet rest n

/-- Python dict assignment d[k] = v: replace in place, or append a new key. -/
def assocSet {α : Type} : List (String × α) → String → α → List (String × α)
  | [], k, v => [(k, v)]
  | (k2, v2) :: rest, k, v =>
      if k2 = k then (k, v) :: rest else (k2, v2) :: assocSet rest k v

/-- Module constant RETRY_ATTEMPTS (parser.py line 34). -/
def RETRY_ATTEMPTS : Nat := 3

/-- Module constant MAX_CONCURRENT_REQUESTS (parser.py line 33). -/
def MAX_CONCURRENT_REQUESTS : Nat := 5

/-- The Statistics class (parser.py lines 37-72): run counters. failures is
the defaultdict(int) keyed by exception type name. -/
structure Statistics where
  players_processed : Nat := 0
  requests_made : Nat := 0
  retries : Nat := 0
  failures : List (String × Nat) := []
  success : Nat := 0
deriving DecidableEq

/-- The fresh Statistics() made at module load (Statistics.__init__). -/
def stats_init : Statistics := {}

def Statistics.log_request (st : Statistics) : Statistics :=
  { st with requests_made := st.requests_made + 1 }

def Statistics.log_retry (st : Statistics) : Statistics :=
  { st with retries := st.retries + 1 }

/-- defaultdict(int) increment: self.failures[error_type] += 1. -/
def bumpCount : List (String × Nat) → String → List (String × Nat)
  | [], k => [(k, 1)]
  | (k2, n) :: rest, k =>
      if k2 = k then (k, n + 1) :: rest else (k2, n) :: bumpCount rest k

def Statistics.log_failure (st : Statistics) (error_type : String) : Statistics :=
  { st with failures := bumpCount st.failures error_type }

def Statistics.log_success (st : Statistics) : Statistics :=
  { st with success := st.success + 1 }

/-- sum(self.failures.values()), as printed in the report. -/
def total_failures (st : Statistics) : Nat :=
  (st.failures.map Prod.snd).sum

/-- self.failures[error_type] for one exception-type key. -/
def failure_count (st : Statistics) (error_type : String) : Nat :=
  (assocGet st.failures error_type).getD 0

/-- The outcome the network hands one physical login attempt
(parser.py lines 104-113): the POST yields an OK response, or a response
whose raise_for_status raises a ClientError carrying an exception-type name,
or the POST itself fails with a ClientError before any response exists. -/
inductive LoginOutcome where
  | ok
  | httpError (e : String)
  | connError (e : String)
deriving DecidableEq

/-- One physical attempt of login (parser.py lines 97-113), as the body the
retry decorator wraps. Note the body never calls stats.log_request; both
error shapes are aiohttp.ClientError, logged as a failure and re-raised. -/
def login_attempt (st : Statistics) (o : LoginOutcome) :
    Statistics × Except String Bool :=
  match o with
  | .ok => (st.log_success, .ok true)
  | .httpError e => (st.log_failure e, .error e)
  | .connError e => (st.log_failure e, .error e)

/-- The outcome of one physical attempt of fetch_players: an OK response
whose json() parses to the page of player summaries (the per-entry
minecraft_nickname field, absent when the key is missing); an OK-status
response whose body parse — response.json() on line 140 — raises a
ClientError such as aiohttp.ContentTypeError; an HTTP error raised by
raise_for_status after the response exists; or a connection-level
ClientError raised before any response exists. -/
inductive PageOutcome where
  | ok (players : List (Option String))
  | badJson (e : String)
  | httpError (e : String)
  | connError (e : String)
deriving DecidableEq

/-- One physical attempt of fetch_players (parser.py lines 122-144).
stats.log_request runs only once a response exists (line 137), so a
connection-level failure makes no request increment. stats.log_success
(line 139) runs on every OK-status response, BEFORE the body parse of
line 140: an attempt whose json() then raises a ClientError has already
incremented the success counter, and the except (line 141) adds a failure
and re-raises into the retry loop. -/
def fetch_players_attempt (st : Statistics) (o : PageOutcome) :
    Statistics × Except String (List (Option String)) :=
  match o with
  | .ok players => (st.log_request.log_success, .ok players)
  | .badJson e => (st.log_request.log_success.log_failure e, .error e)
  | .httpError e => (st.log_request.log_failure e, .error e)
  | .connError e => (st.log_failure e, .error e)

/-- The error a retried logical call surfaces: tenacity raises RetryError
once stop_after_attempt(RETRY_ATTEMPTS) is reached. -/
inductive RunError where
  | retryError
deriving DecidableEq

/-- The tenacity retry wrapper (parser.py lines 91-96 and 116-121):
stop_after_attempt bounds the physical attempts, retry_if_exception_type
(aiohttp.ClientError) covers every error the wrapped bodies raise, and
before_sleep increments the retry counter before each re-attempt. The
environment env scripts the network outcome of each physical attempt;
fuel is the number of attempts still allowed, idx the next attempt index. -/
def retryGo {α β : Type} (f : Statistics → α → Statistics × Except String β)
    (env : Nat → α) : Nat → Nat → Statistics → Statistics × Except RunError β
  | 0, _, st => (st, .error .retryError)
  | fuel + 1, idx, st =>
      match f st (env idx) with
      | (st2, .ok b) => (st2, .ok b)
      | (st2, .error _) =>
          match fuel with
          | 0 => (st2, .error .retryError)
          | fuel2 + 1 => retryGo f env (fuel2 + 1) (idx + 1) st2.log_retry

/-- The retried logical login call: the decorated login as its callers see
it (parser.py lines 91-113). -/
def login (env : Nat → LoginOutcome) (st : Statistics) :
    Statistics × Except RunError Bool :=
  retryGo login_attempt env RETRY_ATTEMPTS 0 st

/-- The retried logical fetch_players call (parser.py lines 116-144). -/
def fetch_players (env : Nat → PageOutcome) (st : Statistics) :
    Statistics × Except RunError (List (Option String)) :=
  retryGo fetch_players_attempt env RETRY_ATTEMPTS 0 st

/-- validate_player_data (parser.py lines 265-270): true when at least one
of the required fields status_main and stats is a present, non-null key. -/
def validate_player_data (data : PlayerData) : Bool :=
  ["status_main", "stats"].any fun field =>
    match assocGet data field with
    | some v => !v.isNull
    | none => false

/-- The outcome of the single GET a process_player call issues
(parser.py lines 295-298): an OK response whose body parses (via the
external extraction collaborator parse_player_profile) to a player
dictionary, together with the separately extracted telegram href; or a
ClientError raised by raise_for_status after the response exists; or a
connection-level ClientError raised before any response exists. -/
inductive ProfileOutcome where
  | ok (parsed : PlayerData) (telegram : Option String)
  | httpError (e : String)
  | connError (e : String)

/-- The telegram merge of parser.py line 304: profile_data gets, under the
telegram key, the extracted href when a link exists and None otherwise. -/
def tgVal : Option String → Val
  | some href => Val.vstr href
  | none => Val.vnull

/-- The fetch-parse-validate-merge part of process_player
(parser.py lines 293-317), reached when the cache has no valid entry.
The code issues exactly one GET — process_player carries no retry
decorator — so only the outcome of attempt 0 of the environment is ever
consulted. stats.log_request runs only once a response exists (line 296). -/
def process_player_fetch (st : Statistics) (cache : Cache) (nick : String)
    (env : Nat → ProfileOutcome) : Statistics × Cache × Option PlayerData :=
  match env 0 with
  | .ok parsed tg =>
      let st := st.log_request
      let profile_data := assocSet parsed "telegram" (tgVal tg)
      if validate_player_data profile_data then
        (st.log_success, assocSet cache nick profile_data, some profile_data)
      else
        (st, cache, none)
  | .httpError e => (st.log_request.log_failure e, cache, none)
  | .connError e => (st.log_failure e, cache, none)

/-- process_player (parser.py lines 273-317): bump players_processed, use a
validating cache hit when one exists, otherwise fall through to the single
fetch. (The semaphore only schedules; it changes no per-call state.) -/
def process_player (st : Statistics) (cache : Cache) (nick : String)
    (env : Nat → ProfileOutcome) : Statistics × Cache × Option PlayerData :=
  let st := { st with players_processed := st.players_processed + 1 }
  match assocGet cache nick with
  | some r =>
      if validate_player_data r then (st, cache, some r)
      else process_player_fetch st cache nick env
  | none => process_player_fetch st cache nick env

/-- One physical attempt of the entity-page GET, as the body a retry
decorator would wrap (same response handling as process_player_fetch, the
failure bookkeeping of lines 296 and 314-315). -/
def profile_attempt (st : Statistics) (o : ProfileOutcome) :
    Statistics × Except String (PlayerData × Option String) :=
  match o with
  | .ok parsed tg => (st.log_request, .ok (parsed, tg))
  | .httpError e => (st.log_request.log_failure e, .error e)
  | .connError e => (st.log_failure e, .error e)

/-- Modelled from the spec: the fetch-parse-validate-merge step with the
entity fetch wrapped by the retry policy of section 4.1/4.2 (maximum
RETRY_ATTEMPTS physical attempts on transient client errors, a
retry-counter increment before each re-attempt, failure surfaced only after
all attempts are exhausted). The process_player of the repository performs no
such retry; this definition exists only to be compared with it. -/
def process_player_retry_fetch (st : Statistics) (cache : Cache)
    (nick : String) (env : Nat → ProfileOutcome) :
    Statistics × Cache × Option PlayerData :=
  match retryGo profile_attempt env RETRY_ATTEMPTS 0 st with
  | (st2, .ok (parsed, tg)) =>
      let profile_data := assocSet parsed "telegram" (tgVal tg)
      if validate_player_data profile_data then
        (st2.log_success, assocSet cache nick profile_data, some profile_data)
      else
        (st2, cache, none)
  | (st2, .error _) => (st2, cache, none)

/-- Modelled from the spec: process_player as claim C1 reads it, with the
entity fetch retried under the retry policy. Identical to process_player
except that the fetch step is process_player_retry_fetch. -/
def process_player_retry (st : Statistics) (cache : Cache) (nick : String)
    (env : Nat → ProfileOutcome) : Statistics × Cache × Option PlayerData :=
  let st := { st with players_processed := st.players_processed + 1 }
  match assocGet cache nick with
  | some r =>
      if validate_player_data r then (st, cache, some r)
      else process_player_retry_fetch st cache nick env
  | none => process_player_retry_fetch st cache nick env

/-- An argument handed to orjson.loads. load_cache passes the open file
OBJECT, not the text read from it; the other shape is the str input the
orjson API actually accepts. -/
inductive OrjsonArg where
  | fileObj (contents : String)
  | strArg (s : String)

/-- The orjson.loads API, parameterised by the real JSON-text parser
(irrelevant here): it accepts str, bytes, bytearray or memoryview and
rejects every other Python object — in particular a file object — with a
TypeError before reading anything. -/
def orjson_loads (parse : String → Except String Cache) :
    OrjsonArg → Except String Cache
  | .fileObj _ => .error "TypeError: Input must be bytes, bytearray, memoryview, or str"
  | .strArg s => parse s

/-- load_cache (parser.py lines 240-251). The file-system state is the
cache file: none when os.path.exists(CACHE_FILE) is false, some contents
otherwise. The code calls orjson.loads(file) on the open file object
(line 247); the TypeError that raises is caught by the bare except, which
logs and returns the empty dict. -/
def load_cache (parse : String → Except String Cache)
    (file : Option String) : Cache :=
  match file with
  | none => []
  | some contents =>
      match orjson_loads parse (.fileObj contents) with
      | .ok c => c
      | .error _ => []

/-- The call orjson.dumps(cache, file, ensure_ascii=False, indent=4)
(parser.py line 260). orjson.dumps has the fixed signature
dumps(obj, default, option): the keyword arguments ensure_ascii and indent
are rejected with a TypeError before anything is serialized; and even a
successful orjson.dumps only RETURNS bytes, it never writes to a file. -/
def orjson_dumps_json_style_call (_cache : Cache) : Except String String :=
  .error "TypeError: dumps() got an unexpected keyword argument"

/-- save_cache (parser.py lines 254-262). The write-mode open truncates
the cache file to empty; the TypeError from the orjson.dumps call is caught
and logged; in either branch nothing is ever written through the file
handle, so the file is left existing and empty. -/
def save_cache (cache : Cache) (_file : Option String) : Option String :=
  match orjson_dumps_json_style_call cache with
  | .ok _bytes => some ""
  | .error _ => some ""

/-- The enumeration while-loop of main (parser.py lines 617-627), one
recursive step per iteration. fpEnv scripts, per offset, the per-attempt
network outcomes of that fetch_players call. fuel bounds the recursion: the
loop runs while offset is at most max_offset and offset grows by 50 from 0,
so max_offset / 50 + 1 iterations are the most the while-loop can make and
gather_players always supplies enough fuel for the guard, never the fuel,
to end the loop. -/
def gatherLoop (fpEnv : Nat → Nat → PageOutcome) (max_offset : Nat) :
    Nat → Nat → Statistics → List (Option String) →
    Statistics × List (Option String)
  | 0, _, st, acc => (st, acc)
  | fuel + 1, offset, st, acc =>
      if offset ≤ max_offset then
        match fetch_players (fpEnv offset) st with
        | (st2, .error _) => (st2, acc)
        | (st2, .ok players) =>
            if players.isEmpty then (st2, acc)
            else gatherLoop fpEnv max_offset fuel (offset + 50) st2 (acc ++ players)
      else (st, acc)

/-- The whole enumeration phase: all_players accumulated from offset 0. -/
def gather_players (fpEnv : Nat → Nat → PageOutcome) (max_offset : Nat)
    (st : Statistics) : Statistics × List (Option String) :=
  gatherLoop fpEnv max_offset (max_offset / 50 + 1) 0 st []

/-- The task-creation filter of main (parser.py lines 635-640): a task is
created only for entries whose minecraft_nickname is present and truthy
(Python: if nickname — the empty string is falsy). -/
def filter_nicknames (players : List (Option String)) : List String :=
  players.filterMap fun entry =>
    match entry with
    | some nick => if nick = "" then none else some nick
    | none => none

/-- Awaiting all scheduled process_player tasks (parser.py line 641),
executed here in schedule order; ppEnv scripts, per nickname, the network
outcomes. Task completion order is unconstrained in the source; the claims
settled through this model do not depend on it. -/
def process_all (ppEnv : String → Nat → ProfileOutcome) :
    List String → Statistics × Cache → Statistics × Cache
  | [], sc => sc
  | nick :: rest, (st, cache) =>
      let r := process_player st cache nick (ppEnv nick)
      process_all ppEnv rest (r.1, r.2.1)

/-- What a normally returning main run leaves behind: the final statistics,
the final working cache, and whether line 646 (the statistics report) ran. -/
structure RunOutput where
  stats : Statistics
  cache : Cache
  report_emitted : Bool

/-- main (parser.py lines 600-646). A RunError result is an exception
propagating out of main (through asyncio.run, ending the process): on that
path neither save_cache nor the statistics report of line 646 runs. The
falsy-login early return of lines 611-613 also returns before line 646. -/
def main (loginEnv : Nat → LoginOutcome) (fpEnv : Nat → Nat → PageOutcome)
    (ppEnv : String → Nat → ProfileOutcome) (max_offset : Nat)
    (previous_cache : Cache) : Except RunError RunOutput :=
  match login loginEnv stats_init with
  | (_, .error e) => .error e
  | (st1, .ok b) =>
      if b then
        let g := gather_players fpEnv max_offset st1
        let nicknames := filter_nicknames g.2
        let r := process_all ppEnv nicknames (g.1, previous_cache)
        .ok { stats := r.1, cache := r.2, report_emitted := true }
      else
        .ok { stats := st1, cache := previous_cache, report_emitted := false }

/-- Whether the run printed the final statistics report: false both for the
early falsy-login return and for an exception ending the process. -/
def report_emitted_of : Except RunError RunOutput → Bool
  | .ok out => out.report_emitted
  | .error _ => false

/-- 1 for a successful logical-call result, 0 for a propagated error. -/
def successDelta {β : Type} : Except RunError β → Nat
  | .ok _ => 1
  | .error _ => 0

/-- The request-counter increment one physical page-fetch attempt makes:
none on a connection-level failure, one once a response exists. -/
def pageRequestDelta : PageOutcome → Nat
  | .connError _ => 0
  | _ => 1

/-- The success-counter increment one physical page-fetch attempt makes:
one for every OK-status response — log_success (line 139) precedes the
body parse of line 140, so an attempt whose json() then raises still
counts — and none when raise_for_status raised or no response exists. -/
def pageSuccessDelta : PageOutcome → Nat
  | .ok _ => 1
  | .badJson _ => 1
  | _ => 0

/-- The request-counter increment the single entity-fetch attempt makes. -/
def profileRequestDelta : ProfileOutcome → Nat
  | .connError _ => 0
  | _ => 1

/-- The success-counter increment one process_player fetch makes: one
exactly when the fetch succeeded and the merged record validates. -/
def profileSuccessDelta : ProfileOutcome → Nat
  | .ok p tg =>
      if validate_player_data (assocSet p "telegram" (tgVal tg)) then 1 else 0
  | _ => 0

/-! Concrete inputs used by the theorems below. -/

/-- A parsed profile that passes validation: status_main present, stats
null. -/
def validParsed : PlayerData := [("status_main", Val.vstr "Hello"), ("stats", Val.vnull)]

/-- validParsed after the telegram merge of process_player. -/
def mergedValid : PlayerData := assocSet validParsed "telegram" (tgVal none)

/-- A cached record that passes validation. -/
def validRecord : PlayerData := [("status_main", Val.vstr "online")]

/-- A one-entry cache holding a valid record. -/
def cacheExample : Cache := [("p", validRecord)]

/-- An entity-fetch environment whose first attempt fails with a transient
connection error and whose second attempt would succeed with a valid
profile. -/
def envA : Nat → ProfileOutcome := fun i =>
  if i = 0 then .connError "ClientConnectorError" else .ok validParsed none

/-- An entity-fetch environment that succeeds at once. -/
def envOk : Nat → ProfileOutcome := fun _ => .ok validParsed none

/-- A login environment that succeeds on the first attempt. -/
def loginOkEnv : Nat → LoginOutcome := fun _ => .ok

/-- A login environment where every attempt fails with a transient
connection error: the decorated login exhausts its retries. -/
def loginAllFailEnv : Nat → LoginOutcome := fun _ => .connError "ClientConnectorError"

/-- A page environment where every attempt of every offset fails. -/
def pageAllFailEnv : Nat → PageOutcome := fun _ => .connError "ClientConnectorError"

/-- A page environment where every attempt yields an OK-status response
whose body parse raises aiohttp.ContentTypeError. -/
def badJsonEnv : Nat → PageOutcome := fun _ => .badJson "ContentTypeError"

/-- A page scripting every offset as an empty page. -/
def pagesEmptyEnv : Nat → Nat → PageOutcome := fun _ _ => .ok []

/-- An entity environment where every fetch fails. -/
def ppFailEnv : String → Nat → ProfileOutcome := fun _ _ => .connError "ClientConnectorError"

/-- A page of 50 identifier-bearing entries. -/
def page50a : List (Option String) := List.replicate 50 (some "a")

/-- A second page of 50 identifier-bearing entries. -/
def page50b : List (Option String) := List.replicate 50 (some "b")

/-- Page results [50 ids, 50 ids, 0 ids]: offset 0 and 50 full, 100 empty. -/
def pagesThree : Nat → Nat → PageOutcome := fun offset _ =>
  if offset = 0 then .ok page50a else if offset = 50 then .ok page50b else .ok []

/-- Every offset yields a full page (enumeration only stops at the ceiling). -/
def pagesAll : Nat → Nat → PageOutcome := fun _ _ => .ok page50a

/-- Offset 0 yields a full page; every later fetch fails on all attempts. -/
def pagesFailAt50 : Nat → Nat → PageOutcome := fun offset _ =>
  if offset = 0 then .ok page50a else .connError "ServerDisconnectedError"

/-! General lemmas about the counters and the retry loop. -/

@[simp] theorem log_retry_success (st : Statistics) :
    st.log_retry.success = st.success := rfl

@[simp] theorem log_retry_requests (st : Statistics) :
    st.log_retry.requests_made = st.requests_made := rfl

@[simp] theorem log_failure_success (st : Statistics) (e : String) :
    (st.log_failure e).success = st.success := rfl

@[simp] theorem log_failure_requests (st : Statistics) (e : String) :
    (st.log_failure e).requests_made = st.requests_made := rfl

@[simp] theorem log_success_success (st : Statistics) :
    st.log_success.success = st.success + 1 := rfl

@[simp] theorem log_success_requests (st : Statistics) :
    st.log_success.requests_made = st.requests_made := rfl

@[simp] theorem log_request_requests (st : Statistics) :
    st.log_request.requests_made = st.requests_made + 1 := rfl

@[simp] theorem log_request_success (st : Statistics) :
    st.log_request.success = st.success := rfl

/-- One defaultdict increment adds one to the sum of the failure counters. -/
theorem bumpCount_sum (l : List (String × Nat)) (k : String) :
    ((bumpCount l k).map Prod.snd).sum = (l.map Prod.snd).sum + 1 := by
  induction l with
  | nil => simp [bumpCount]
  | cons hd tl ih =>
    rcases hd with ⟨k2, n⟩
    by_cases h : k2 = k
    · simp [bumpCount, h]
      omega
    · simp [bumpCount, h, ih]
      omega

theorem total_failures_log_failure (st : Statistics) (e : String) :
    total_failures (st.log_failure e) = total_failures st + 1 := by
  simp [total_failures, Statistics.log_failure, bumpCount_sum]

@[simp] theorem total_failures_processed (st : Statistics) (n : Nat) :
    total_failures { st with players_processed := n } = total_failures st := rfl

@[simp] theorem total_failures_log_request (st : Statistics) :
    total_failures st.log_request = total_failures st := rfl

@[simp] theorem total_failures_log_success (st : Statistics) :
    total_failures st.log_success = total_failures st := rfl

@[simp] theorem total_failures_log_retry (st : Statistics) :
    total_failures st.log_retry = total_failures st := rfl

/-- The retry loop with no attempts left surfaces the retry error. -/
theorem retryGo_zero {α β : Type} (f : Statistics → α → Statistics × Except String β)
    (env : Nat → α) (idx : Nat) (st : Statistics) :
    retryGo f env 0 idx st = (st, .error .retryError) := by
  rw [retryGo]

/-- One unfolding step of the retry loop. -/
theorem retryGo_succ {α β : Type} (f : Statistics → α → Statistics × Except String β)
    (env : Nat → α) (fuel idx : Nat) (st : Statistics) :
    retryGo f env (fuel + 1) idx st =
      match f st (env idx) with
      | (st2, .ok b) => (st2, .ok b)
      | (st2, .error _) =>
          match fuel with
          | 0 => (st2, .error .retryError)
          | fuel2 + 1 => retryGo f env (fuel2 + 1) (idx + 1) st2.log_retry := by
  rw [retryGo]

/-- When no single attempt touches the request counter, neither does the
whole retried call (the retry bookkeeping touches only the retry counter). -/
theorem retryGo_requests_const {α β : Type}
    (f : Statistics → α → Statistics × Except String β) (env : Nat → α)
    (h : ∀ st a, (f st a).1.requests_made = st.requests_made) :
    ∀ fuel idx st, (retryGo f env fuel idx st).1.requests_made = st.requests_made := by
  intro fuel
  induction fuel with
  | zero => intro idx st; rw [retryGo_zero]
  | succ n ih =>
    intro idx st
    have hf := h st (env idx)
    rcases hfe : f st (env idx) with ⟨st2, r⟩
    rw [hfe] at hf
    rw [retryGo_succ, hfe]
    cases r with
    | ok b => exact hf
    | error e =>
      cases n with
      | zero => exact hf
      | succ m =>
        show (retryGo f env (m + 1) (idx + 1) st2.log_retry).1.requests_made = _
        rw [ih]
        simpa using hf

/-- Every value a retried call returns satisfies what every single
successful attempt satisfies. -/
theorem retryGo_ok_val {α β : Type} {p : β → Prop}
    (f : Statistics → α → Statistics × Except String β) (env : Nat → α)
    (hok : ∀ st a st2 b, f st a = (st2, .ok b) → p b) :
    ∀ fuel idx st st2 b, retryGo f env fuel idx st = (st2, .ok b) → p b := by
  intro fuel
  induction fuel with
  | zero =>
    intro idx st st2 b hres
    rw [retryGo_zero] at hres
    exact absurd (congrArg Prod.snd hres) (by simp)
  | succ n ih =>
    intro idx st st2 b hres
    rcases hfe : f st (env idx) with ⟨st3, r⟩
    rw [retryGo_succ, hfe] at hres
    cases r with
    | ok b2 =>
      have hb : b2 = b := by
        have := congrArg Prod.snd hres
        simpa using this
      exact hb ▸ hok st (env idx) st3 b2 hfe
    | error e =>
      cases n with
      | zero => exact absurd (congrArg Prod.snd hres) (by simp)
      | succ m => exact ih (idx + 1) st3.log_retry st2 b hres

/-- When every successful attempt adds one success and every failing
attempt adds none, a retried logical call adds one success exactly when it
returns successfully — regardless of how many attempts it spent. -/
theorem retryGo_success_per_call {α β : Type}
    (f : Statistics → α → Statistics × Except String β) (env : Nat → α)
    (hok : ∀ st a st2 b, f st a = (st2, .ok b) → st2.success = st.success + 1)
    (herr : ∀ st a st2 e, f st a = (st2, .error e) → st2.success = st.success) :
    ∀ fuel idx st, (retryGo f env fuel idx st).1.success =
      st.success + successDelta (retryGo f env fuel idx st).2 := by
  intro fuel
  induction fuel with
  | zero => intro idx st; rw [retryGo_zero]; simp [successDelta]
  | succ n ih =>
    intro idx st
    rcases hfe : f st (env idx) with ⟨st2, r⟩
    rw [retryGo_succ, hfe]
    cases r with
    | ok b =>
      simpa [successDelta] using hok st (env idx) st2 b hfe
    | error e =>
      have h2 := herr st (env idx) st2 e hfe
      cases n with
      | zero => simpa [successDelta] using h2
      | succ m =>
        show (retryGo f env (m + 1) (idx + 1) st2.log_retry).1.success = _
        rw [ih]
        have h3 : (st2.log_retry).success = st.success := h2
        rw [h3]

/-- When every failing attempt logs exactly one failure, a retried call
that exhausts its attempts logs one failure per physical attempt: fuel of
them in total, not one. -/
theorem retryGo_failures_exhaust {α β : Type}
    (f : Statistics → α → Statistics × Except String β) (env : Nat → α)
    (herr : ∀ st a st2 e, f st a = (st2, .error e) →
      total_failures st2 = total_failures st + 1) :
    ∀ fuel idx st, (retryGo f env fuel idx st).2 = .error .retryError →
      total_failures (retryGo f env fuel idx st).1 = total_failures st + fuel := by
  intro fuel
  induction fuel with
  | zero =>
    intro idx st _
    rw [retryGo_zero]
    simp
  | succ n ih =>
    intro idx st hres
    rcases hfe : f st (env idx) with ⟨st2, r⟩
    rw [retryGo_succ, hfe] at hres ⊢
    cases r with
    | ok b => simp at hres
    | error e =>
      have h2 := herr st (env idx) st2 e hfe
      cases n with
      | zero =>
        show total_failures st2 = total_failures st + (0 + 1)
        omega
      | succ m =>
        show total_failures (retryGo f env (m + 1) (idx + 1) st2.log_retry).1
          = total_failures st + (m + 1 + 1)
        have hres2 : (retryGo f env (m + 1) (idx + 1) st2.log_retry).2
            = .error .retryError := hres
        rw [ih _ _ hres2]
        have h3 : total_failures st2.log_retry = total_failures st2 := rfl
        rw [h3, h2]
        omega

/-- Dict lookup after insert-or-replace: the new key reads the new value,
every other key is untouched. -/
theorem assocGet_assocSet {α : Type} (l : List (String × α)) (k k2 : String) (v : α) :
    assocGet (assocSet l k v) k2 = if k = k2 then some v else assocGet l k2 := by
  induction l with
  | nil =>
    by_cases h : k = k2 <;> simp [assocSet, assocGet, h]
  | cons hd tl ih =>
    rcases hd with ⟨k3, v3⟩
    by_cases h3 : k3 = k
    · subst h3
      by_cases h : k3 = k2 <;> simp [assocSet, assocGet, h]
    · by_cases h : k3 = k2
      · subst h
        have hk : ¬ k = k3 := fun hh => h3 hh.symm
        simp [assocSet, assocGet, h3, hk]
      · simp [assocSet, assocGet, h3, h, ih]

/-- Non-null test against the null constructor. -/
theorem isNull_false_iff (v : Val) : v.isNull = false ↔ v ≠ Val.vnull := by
  cases v <;> simp [Val.isNull]

/-- The enumeration loop with no fuel left. -/
theorem gatherLoop_zero (fpEnv : Nat → Nat → PageOutcome) (mo offset : Nat)
    (st : Statistics) (acc : List (Option String)) :
    gatherLoop fpEnv mo 0 offset st acc = (st, acc) := by
  rw [gatherLoop]

/-- One unfolding step of the enumeration loop. -/
theorem gatherLoop_succ (fpEnv : Nat → Nat → PageOutcome) (mo fuel offset : Nat)
    (st : Statistics) (acc : List (Option String)) :
    gatherLoop fpEnv mo (fuel + 1) offset st acc =
      (if offset ≤ mo then
        match fetch_players (fpEnv offset) st with
        | (st2, .error _) => (st2, acc)
        | (st2, .ok players) =>
            if players.isEmpty then (st2, acc)
            else gatherLoop fpEnv mo fuel (offset + 50) st2 (acc ++ players)
      else (st, acc)) := by
  rw [gatherLoop]

/-- Once the remaining fuel covers every offset the guard still admits, one
more unit of fuel changes nothing: the guard or the page content, never the
fuel, is what ends the loop. -/
theorem gatherLoop_fuel_sufficient (fpEnv : Nat → Nat → PageOutcome) (mo : Nat) :
    ∀ fuel offset st acc, mo < offset + 50 * fuel →
      gatherLoop fpEnv mo (fuel + 1) offset st acc
        = gatherLoop fpEnv mo fuel offset st acc := by
  intro fuel
  induction fuel with
  | zero =>
    intro offset st acc hb
    rw [gatherLoop_succ, gatherLoop_zero]
    have hg : ¬ offset ≤ mo := by omega
    simp [hg]
  | succ f ih =>
    intro offset st acc hb
    rw [gatherLoop_succ fpEnv mo (f + 1) offset st acc,
        gatherLoop_succ fpEnv mo f offset st acc]
    by_cases hg : offset ≤ mo
    · simp only [hg, if_true]
      rcases hf : fetch_players (fpEnv offset) st with ⟨st2, r⟩
      cases r with
      | error e => rfl
      | ok players =>
        by_cases he : players.isEmpty
        · simp [he]
        · simp only [he, if_false, Bool.false_eq_true]
          exact ih (offset + 50) st2 (acc ++ players) (by omega)
    · simp [hg]

/-- The fuel gather_players supplies is already enough: extra fuel computes
the same enumeration, so the fuelled recursion is exactly the while loop of
main lines 618-627. -/
theorem gather_players_fuel_irrelevant (fpEnv : Nat → Nat → PageOutcome)
    (mo : Nat) (st : Statistics) (extra : Nat) :
    gatherLoop fpEnv mo (mo / 50 + 1 + extra) 0 st []
      = gather_players fpEnv mo st := by
  induction extra with
  | zero => rfl
  | succ k ih =>
    have hb : mo < 0 + 50 * (mo / 50 + 1 + k) := by omega
    have h1 : gatherLoop fpEnv mo ((mo / 50 + 1 + k) + 1) 0 st []
        = gatherLoop fpEnv mo (mo / 50 + 1 + k) 0 st [] :=
      gatherLoop_fuel_sufficient fpEnv mo (mo / 50 + 1 + k) 0 st [] hb
    exact h1.trans ih

/-- Every value login ever returns is True: the only return statement of
its body returns True, and every error path raises. -/
theorem login_result_true (env : Nat → LoginOutcome) (st st2 : Statistics) (b : Bool)
    (h : login env st = (st2, .ok b)) : b = true := by
  refine @retryGo_ok_val LoginOutcome Bool (fun x => x = true) login_attempt env ?_
    RETRY_ATTEMPTS 0 st st2 b h
  intro st3 a st4 b2 hf
  cases a with
  | ok =>
    have := congrArg Prod.snd hf
    simpa [login_attempt] using this.symm
  | httpError e => simp [login_attempt] at hf
  | connError e => simp [login_attempt] at hf

/-- The fetch step of process_player either leaves the Cache untouched or
writes, under the processed key, exactly one record that passed
validation. -/
theorem cache_writes_validated_fetch (st : Statistics) (c : Cache) (n : String)
    (env : Nat → ProfileOutcome) (k : String) (r : PlayerData)
    (h : assocGet (process_player_fetch st c n env).2.1 k = some r) :
    assocGet c k = some r ∨ validate_player_data r = true := by
  rcases he : env 0 with ⟨p, tg⟩ | e | e
  · by_cases hv : validate_player_data (assocSet p "telegram" (tgVal tg))
    · rw [show (process_player_fetch st c n env).2.1
          = assocSet c n (assocSet p "telegram" (tgVal tg))
        by simp [process_player_fetch, he, hv]] at h
      rw [assocGet_assocSet] at h
      by_cases hk : n = k
      · simp [hk] at h
        right
        rw [← h]
        exact hv
      · simp [hk] at h
        exact Or.inl h
    · rw [show (process_player_fetch st c n env).2.1 = c
        by simp [process_player_fetch, he, hv]] at h
      exact Or.inl h
  · rw [show (process_player_fetch st c n env).2.1 = c
      by simp [process_player_fetch, he]] at h
    exact Or.inl h
  · rw [show (process_player_fetch st c n env).2.1 = c
      by simp [process_player_fetch, he]] at h
    exact Or.inl h

/-! The claims. -/

/-- Claim C1, counterexample: the entity-page fetch of process_player is
NOT retried. On an environment whose first attempt fails with a transient
client error and whose second attempt would succeed, the code records the
failure at once (one failure, zero retry increments, entity skipped, cache
untouched), while the retry-policy behaviour the claim describes
(process_player_retry) retries and succeeds. -/
theorem entity_fetch_not_retried_cex :
    (process_player stats_init [] "x" envA).1.retries = 0 ∧
    total_failures (process_player stats_init [] "x" envA).1 = 1 ∧
    (process_player stats_init [] "x" envA).2.1 = [] ∧
    (process_player stats_init [] "x" envA).2.2 = none ∧
    (process_player_retry stats_init [] "x" envA).1.retries = 1 ∧
    (process_player_retry stats_init [] "x" envA).2.2.isSome = true ∧
    (process_player_retry stats_init [] "x" envA).1.success = 1 :=
  ⟨rfl, rfl, rfl, rfl, rfl, rfl, rfl⟩

/-- Claim C1 (amended): the entity-page fetch of a processing task is
attempted exactly once — process_player consults only attempt 0 of its
network environment — and on a transient client error the failure is
recorded in Statistics immediately (with no retry), the entity is skipped
and the Cache is left unchanged; the run continues. -/
theorem entity_fetch_single_attempt :
    (∀ st c n env env2, env 0 = env2 0 →
      process_player st c n env = process_player st c n env2) ∧
    (∀ st c n env e, assocGet c n = none → env 0 = ProfileOutcome.connError e →
      process_player st c n env =
        (({ st with players_processed := st.players_processed + 1 }).log_failure e,
          c, none)) ∧
    (∀ st c n env e, assocGet c n = none → env 0 = ProfileOutcome.httpError e →
      process_player st c n env =
        (({ st with players_processed := st.players_processed + 1 }).log_request.log_failure e,
          c, none)) := by
  refine ⟨?_, ?_, ?_⟩
  · intro st c n env env2 h
    unfold process_player process_player_fetch
    rw [h]
  · intro st c n env e hc he
    simp [process_player, process_player_fetch, hc, he]
  · intro st c n env e hc he
    simp [process_player, process_player_fetch, hc, he]

/-- Claim C2, counterexample: when login exhausts its retries the RetryError
propagates out of main and the process ends WITHOUT emitting the final
statistics report (line 646 is never reached). -/
theorem login_abort_no_report_cex :
    main loginAllFailEnv pagesEmptyEnv ppFailEnv 500 [] =
      .error .retryError ∧
    report_emitted_of (main loginAllFailEnv pagesEmptyEnv ppFailEnv 500 []) = false :=
  ⟨rfl, rfl⟩

/-- Claim C2 (amended): the final statistics report is emitted exactly on
the runs main finishes with a successful login; a run aborted because login
exhausted its retries ends by exception propagation and emits no report. -/
theorem report_only_without_abort :
    (∀ lE fE pE mo pc st1 b,
      login lE stats_init = (st1, Except.ok b) → b = true →
      report_emitted_of (main lE fE pE mo pc) = true) ∧
    (∀ lE fE pE mo pc st1 e,
      login lE stats_init = (st1, Except.error e) →
      report_emitted_of (main lE fE pE mo pc) = false) := by
  constructor
  · intro lE fE pE mo pc st1 b h hb
    subst hb
    simp [main, h, report_emitted_of]
  · intro lE fE pE mo pc st1 e h
    simp [main, h, report_emitted_of]

/-- Claim C3, counterexample: a login whose single physical attempt
succeeds leaves the request counter at 0 — login never increments it — so
the request counter is not incremented once per physical attempt. -/
theorem login_request_counter_cex :
    (login loginOkEnv stats_init).1.requests_made = 0 ∧
    ¬ (login loginOkEnv stats_init).1.requests_made = 1 ∧
    (login loginOkEnv stats_init).2 = Except.ok true ∧
    (login loginOkEnv stats_init).1.success = 1 :=
  ⟨rfl, by decide, rfl, rfl⟩

/-- Claim C3 (amended): page and entity fetches increment the request
counter exactly once per physical attempt on which an HTTP response is
obtained, and not at all on a connection-level failure; login never
increments the request counter; login increments the success counter
exactly once per successful logical call (not per attempt); the page fetch
increments the success counter once per physical attempt whose response
has OK status — log_success (line 139) runs before response.json()
(line 140), so an attempt whose body parse then raises a retried
ClientError still counts, and a logical page fetch failing on all three
attempts that way increments success three times; the entity fetch
increments the success counter exactly once per fetch whose merged record
passes validation. -/
theorem counter_discipline :
    (∀ env st, (login env st).1.requests_made = st.requests_made) ∧
    (∀ st o, (fetch_players_attempt st o).1.requests_made =
      st.requests_made + pageRequestDelta o) ∧
    (∀ env st, (login env st).1.success =
      st.success + successDelta (login env st).2) ∧
    (∀ st o, (fetch_players_attempt st o).1.success =
      st.success + pageSuccessDelta o) ∧
    ((fetch_players badJsonEnv stats_init).1.success = 3 ∧
      (fetch_players badJsonEnv stats_init).2 = Except.error RunError.retryError) ∧
    (∀ st c n env, assocGet c n = none →
      (process_player st c n env).1.requests_made =
        st.requests_made + profileRequestDelta (env 0) ∧
      (process_player st c n env).1.success =
        st.success + profileSuccessDelta (env 0)) := by
  refine ⟨?_, ?_, ?_, ?_, ⟨rfl, rfl⟩, ?_⟩
  · intro env st
    refine retryGo_requests_const login_attempt env ?_ RETRY_ATTEMPTS 0 st
    intro st2 a
    cases a <;> rfl
  · intro st o
    cases o <;> simp [fetch_players_attempt, pageRequestDelta]
  · intro env st
    unfold login
    refine retryGo_success_per_call login_attempt env ?_ ?_ RETRY_ATTEMPTS 0 st
    · intro st3 a st4 b hf
      cases a with
      | ok =>
        have h1 := congrArg Prod.fst hf
        simp [login_attempt] at h1
        rw [← h1]
        simp
      | httpError e => simp [login_attempt] at hf
      | connError e => simp [login_attempt] at hf
    · intro st3 a st4 e hf
      cases a with
      | ok => simp [login_attempt] at hf
      | httpError e2 =>
        have h1 := congrArg Prod.fst hf
        simp [login_attempt] at h1
        rw [← h1]
        simp
      | connError e2 =>
        have h1 := congrArg Prod.fst hf
        simp [login_attempt] at h1
        rw [← h1]
        simp
  · intro st o
    cases o <;> simp [fetch_players_attempt, pageSuccessDelta]
  · intro st c n env hc
    constructor
    · cases he : env 0 with
      | ok p tg =>
        by_cases hv : validate_player_data (assocSet p "telegram" (tgVal tg)) <;>
          simp [process_player, process_player_fetch, hc, he, hv, profileRequestDelta]
      | httpError e =>
        simp [process_player, process_player_fetch, hc, he, profileRequestDelta]
      | connError e =>
        simp [process_player, process_player_fetch, hc, he, profileRequestDelta]
    · cases he : env 0 with
      | ok p tg =>
        by_cases hv : validate_player_data (assocSet p "telegram" (tgVal tg)) <;>
          simp [process_player, process_player_fetch, hc, he, hv, profileSuccessDelta]
      | httpError e =>
        simp [process_player, process_player_fetch, hc, he, profileSuccessDelta]
      | connError e =>
        simp [process_player, process_player_fetch, hc, he, profileSuccessDelta]

/-- Claim C4, counterexample: a page fetch whose three physical attempts
all fail with the same transient error leaves the failure counter of that
error kind at 3, not at the 1 per logical call the claim states. -/
theorem failure_counter_cex :
    failure_count (fetch_players pageAllFailEnv stats_init).1 "ClientConnectorError" = 3 ∧
    ¬ failure_count (fetch_players pageAllFailEnv stats_init).1 "ClientConnectorError" = 1 ∧
    (fetch_players pageAllFailEnv stats_init).2 = Except.error RunError.retryError :=
  ⟨by decide, by decide, rfl⟩

/-- Claim C4 (amended): the failure counter is incremented once per failing
PHYSICAL attempt — RETRY_ATTEMPTS times for a page fetch or login that
fails on every retry attempt, once for the single-attempt entity fetch —
and an entity fetch that fails leaves the Cache unchanged. -/
theorem failure_count_per_attempt :
    (∀ env st, (fetch_players env st).2 = Except.error RunError.retryError →
      total_failures (fetch_players env st).1 = total_failures st + RETRY_ATTEMPTS) ∧
    (∀ env st, (login env st).2 = Except.error RunError.retryError →
      total_failures (login env st).1 = total_failures st + RETRY_ATTEMPTS) ∧
    (∀ st c n env e, assocGet c n = none → env 0 = ProfileOutcome.connError e →
      total_failures (process_player st c n env).1 = total_failures st + 1 ∧
      (process_player st c n env).2.1 = c) ∧
    (∀ st c n env e, assocGet c n = none → env 0 = ProfileOutcome.httpError e →
      total_failures (process_player st c n env).1 = total_failures st + 1 ∧
      (process_player st c n env).2.1 = c) := by
  refine ⟨?_, ?_, ?_, ?_⟩
  · intro env st h
    unfold fetch_players at h ⊢
    refine retryGo_failures_exhaust fetch_players_attempt env ?_ RETRY_ATTEMPTS 0 st h
    intro st3 a st4 e hf
    cases a with
    | ok players => simp [fetch_players_attempt] at hf
    | badJson e2 =>
      have h1 := congrArg Prod.fst hf
      simp [fetch_players_attempt] at h1
      rw [← h1]
      simp [total_failures_log_failure]
    | httpError e2 =>
      have h1 := congrArg Prod.fst hf
      simp [fetch_players_attempt] at h1
      rw [← h1]
      simp [total_failures_log_failure]
    | connError e2 =>
      have h1 := congrArg Prod.fst hf
      simp [fetch_players_attempt] at h1
      rw [← h1]
      simp [total_failures_log_failure]
  · intro env st h
    unfold login at h ⊢
    refine retryGo_failures_exhaust login_attempt env ?_ RETRY_ATTEMPTS 0 st h
    intro st3 a st4 e hf
    cases a with
    | ok => simp [login_attempt] at hf
    | httpError e2 =>
      have h1 := congrArg Prod.fst hf
      simp [login_attempt] at h1
      rw [← h1]
      simp [total_failures_log_failure]
    | connError e2 =>
      have h1 := congrArg Prod.fst hf
      simp [login_attempt] at h1
      rw [← h1]
      simp [total_failures_log_failure]
  · intro st c n env e hc he
    constructor <;>
      simp [process_player, process_player_fetch, hc, he, total_failures_log_failure]
  · intro st c n env e hc he
    constructor <;>
      simp [process_player, process_player_fetch, hc, he, total_failures_log_failure]

/-- Claim C5 (code bug): save_cache and load_cache misuse the orjson API —
orjson.dumps rejects the file argument and json-module keywords with a
TypeError after the write-mode open has truncated the file; load_cache hands
the open file object (not its text) to orjson.loads, which rejects it with
a TypeError the bare except turns into the empty dict. So loading returns
the empty Cache for EVERY file state (tolerating absence and corruption,
as claimed, but also discarding every valid file), and the save/load
round-trip of a non-empty cache yields the empty mapping instead of an
equal one. -/
theorem cache_persistence_broken :
    (∀ parse file, load_cache parse file = []) ∧
    load_cache (fun s => Except.error s) (save_cache cacheExample none) = [] ∧
    cacheExample ≠ [] := by
  refine ⟨?_, rfl, ?_⟩
  · intro parse file
    cases file <;> rfl
  · simp [cacheExample]

/-- Claim C6: an identifier whose cached Record passes validation is served
from the Cache: whatever the network environment (including an unreachable
network), process_player only bumps the processed counter, performs no
request, returns the cached Record and leaves the Cache unchanged. -/
theorem cache_hit_skips_network (st : Statistics) (c : Cache) (n : String)
    (env : Nat → ProfileOutcome) (r : PlayerData)
    (hget : assocGet c n = some r) (hval : validate_player_data r = true) :
    process_player st c n env =
      ({ st with players_processed := st.players_processed + 1 }, c, some r) := by
  simp [process_player, hget, hval]

/-- Witness for C6 at a concrete valid cached record and an environment
whose every attempt fails (unreachable network). -/
theorem cache_hit_skips_network_witness :
    process_player stats_init cacheExample "p"
        (fun _ => ProfileOutcome.connError "ClientConnectorError") =
      ({ stats_init with players_processed := stats_init.players_processed + 1 },
        cacheExample, some validRecord) :=
  cache_hit_skips_network stats_init cacheExample "p"
    (fun _ => ProfileOutcome.connError "ClientConnectorError") validRecord rfl rfl

/-- Claim C7: enumeration starts at offset 0, moves up by the page size 50
after each non-empty page and stops at the first empty page or once the
offset exceeds the ceiling: pages [50, 50, 0] yield exactly 100 accumulated
and scheduled identifiers (not 150); with every page full and ceiling 99
exactly the offsets 0 and 50 are fetched; and a page fetch that fails after
its retries ends enumeration early with the identifiers gathered so far. -/
theorem enumeration_pagination :
    (gather_players pagesThree 500 stats_init).2 = page50a ++ page50b ∧
    (gather_players pagesThree 500 stats_init).2.length = 100 ∧
    ¬ (gather_players pagesThree 500 stats_init).2.length = 150 ∧
    (filter_nicknames (gather_players pagesThree 500 stats_init).2).length = 100 ∧
    (gather_players pagesAll 99 stats_init).2.length = 100 ∧
    (gather_players pagesFailAt50 500 stats_init).2 = page50a ∧
    (gather_players pagesFailAt50 500 stats_init).1.retries = 2 :=
  ⟨by decide, by decide, by decide, by decide, by decide, by decide, by decide⟩

/-- Claim C8: a Record is valid iff at least one of the required fields
status_main and stats is present and non-null; a Record with null
status_main and stats a non-empty list is valid, one with both fields null
(or no fields at all) is invalid. -/
theorem validation_any_required_field :
    (∀ d, validate_player_data d = true ↔
      ((∃ v, assocGet d "status_main" = some v ∧ v ≠ Val.vnull) ∨
       (∃ v, assocGet d "stats" = some v ∧ v ≠ Val.vnull))) ∧
    validate_player_data
      [("status_main", Val.vnull), ("stats", Val.vlist [Val.vstr "a"])] = true ∧
    validate_player_data [("status_main", Val.vnull), ("stats", Val.vnull)] = false ∧
    validate_player_data [] = false := by
  refine ⟨?_, rfl, rfl, rfl⟩
  intro d
  cases h1 : assocGet d "status_main" <;> cases h2 : assocGet d "stats" <;>
    simp [validate_player_data, h1, h2, ← isNull_false_iff, Bool.not_eq_true']

/-- One process_player call either leaves a Cache entry as it found it or
writes a record that passed validation. -/
theorem process_player_writes_validated (st : Statistics) (c : Cache) (n : String)
    (env : Nat → ProfileOutcome) (k : String) (r : PlayerData)
    (h : assocGet (process_player st c n env).2.1 k = some r) :
    assocGet c k = some r ∨ validate_player_data r = true := by
  rcases hc : assocGet c n with _ | r2
  · rw [show (process_player st c n env).2.1
        = (process_player_fetch
            { st with players_processed := st.players_processed + 1 } c n env).2.1
      by simp [process_player, hc]] at h
    exact cache_writes_validated_fetch _ c n env k r h
  · by_cases hv : validate_player_data r2
    · rw [show (process_player st c n env).2.1 = c by simp [process_player, hc, hv]] at h
      exact Or.inl h
    · rw [show (process_player st c n env).2.1
          = (process_player_fetch
              { st with players_processed := st.players_processed + 1 } c n env).2.1
        by simp [process_player, hc, hv]] at h
      exact cache_writes_validated_fetch _ c n env k r h

/-- Claim C9: every Record written into the Cache passes the validation
predicate at the moment it is written — per processing call, and over a
whole run of processing tasks: every entry of the final Cache either was
already in the starting Cache unchanged or was validated when written.
Valid candidates insert-or-replace, invalid candidates and failed fetches
mutate nothing. -/
theorem cache_writes_validated :
    (∀ st c n env k r,
      assocGet (process_player st c n env).2.1 k = some r →
      assocGet c k = some r ∨ validate_player_data r = true) ∧
    (∀ ppEnv nicks st c k r,
      assocGet (process_all ppEnv nicks (st, c)).2 k = some r →
      assocGet c k = some r ∨ validate_player_data r = true) := by
  constructor
  · exact fun st c n env k r h => process_player_writes_validated st c n env k r h
  · intro ppEnv nicks
    induction nicks with
    | nil => intro st c k r h; exact Or.inl h
    | cons n rest ih =>
      intro st c k r h
      rw [show process_all ppEnv (n :: rest) (st, c)
          = process_all ppEnv rest
              ((process_player st c n (ppEnv n)).1, (process_player st c n (ppEnv n)).2.1)
        by rw [process_all]] at h
      rcases ih _ _ k r h with h2 | h2
      · exact process_player_writes_validated st c n (ppEnv n) k r h2
      · exact Or.inr h2

/-- Witness for C9: the record written for a fresh identifier under a
successful fetch was validated. -/
theorem cache_writes_validated_witness :
    assocGet ([] : Cache) "x" = some mergedValid ∨
      validate_player_data mergedValid = true :=
  cache_writes_validated.1 stats_init [] "x" envOk "x" mergedValid rfl

/-- Claim C10: login either returns True or raises — every normally
returned value is True — so the falsy-login branch of main (lines 611-613)
is unreachable: every normal return of main carries the report, and a
login failure can end the run only by exception propagation. -/
theorem login_never_returns_false :
    (∀ env st st2 b, login env st = (st2, Except.ok b) → b = true) ∧
    (∀ lE fE pE mo pc out, main lE fE pE mo pc = Except.ok out →
      out.report_emitted = true) := by
  constructor
  · exact fun env st st2 b h => login_result_true env st st2 b h
  · intro lE fE pE mo pc out h
    rcases hl : login lE stats_init with ⟨st1, r⟩
    cases r with
    | error e => simp [main, hl] at h
    | ok b =>
      have hb := login_result_true lE stats_init st1 b hl
      subst hb
      simp [main, hl] at h
      rw [← h]

end SMPParser
